import Mathlib

/-!
Verification development for the fastapi-supabase template backend.

The embedding models the items table of the external store as a list of
loosely-typed rows (optional columns), the pydantic schemas as Lean
structures with explicit validation, the generic repository
(`src/shared/crud_base.py`), the identity resolver and role gate
(`src/supabase/deps.py`), and the item endpoints
(`src/item/api_v1/endpoints.py`).  Python exceptions are modelled with
`Except`; an HTTP error response is a status code paired with a detail
string.
-/

set_option maxHeartbeats 1000000

namespace FastapiSupabase

/-- Exceptions that can be raised inside an endpoint's try block:
`http` models `fastapi.HTTPException` (whose `str(e)` is
`f"{status_code}: {detail}"`), `api` models a postgrest `APIError`,
`validation` a pydantic `ValidationError`. -/
inductive Exc where
  | http : Nat → String → Exc
  | api : String → Exc
  | auth : String → Exc
  | validation : String → Exc
deriving Repr, DecidableEq

/-- Python `str(e)` for each modelled exception class (`auth` is a gotrue
`AuthApiError`). -/
def Exc.message : Exc → String
  | .http code detail => toString code ++ ": " ++ detail
  | .api m => m
  | .auth m => m
  | .validation m => m

/-- An HTTP response of an endpoint: either a success value or an error
response carrying a status code and a detail string. -/
inductive EndpointResult (α : Type) where
  | ok : α → EndpointResult α
  | err : Nat → String → EndpointResult α
deriving Repr, DecidableEq

/-- A stored row of the `items` table as the loosely-typed mapping the
external store returns: every column may be NULL except the primary key
and the server-managed timestamps. -/
structure Row where
  id : String
  title : Option String
  description : Option String
  user_id : Option String
  created_at : String
  updated_at : String
deriving Repr, DecidableEq

/-- The `items` table of the external store. -/
abbrev Db := List Row

/-- The pydantic response model `Item` (src/item/schemas.py): `title` and
`user_id` are required, `description` is optional. -/
structure Item where
  id : String
  title : String
  description : Option String
  user_id : String
  created_at : String
  updated_at : String
deriving Repr, DecidableEq

/-- Pydantic validation `Item(**row)`: fails (raises `ValidationError`)
when a required column is NULL in the row. -/
def Item.ofRow (r : Row) : Except Exc Item :=
  match r.title, r.user_id with
  | some t, some u =>
      .ok { id := r.id, title := t, description := r.description,
            user_id := u, created_at := r.created_at, updated_at := r.updated_at }
  | _, _ => .error (Exc.validation "validation error for Item")

/-- The pydantic input model `ItemCreate` (src/item/schemas.py): `title`
required, `description` and `user_id` optional with default None. -/
structure ItemCreate where
  title : String
  description : Option String
  user_id : Option String
deriving Repr, DecidableEq

/-- The pydantic input model `ItemUpdate` (src/item/schemas.py): `title`
and `description` optional with default None.  The `id` field comes from
`UpdateBase`; `src/shared/base_schemas.py` is absent from the sources, so
the `id` field is modelled from the spec: `update(input)` updates "the
record identified by `input.id`", hence `UpdateBase` carries a required
`id`. -/
structure ItemUpdate where
  id : String
  title : Option String
  description : Option String
deriving Repr, DecidableEq

/-- A postgrest update payload over the `items` table: for each column an
outer `none` means the column is not in the payload, `some v` means the
column is written with value `v` (which may itself be NULL). -/
structure Payload where
  id : Option String
  title : Option (Option String)
  description : Option (Option String)
deriving Repr, DecidableEq

/-- Apply an update payload to one stored row. -/
def Payload.apply (p : Payload) (r : Row) : Row :=
  { r with id := p.id.getD r.id,
           title := p.title.getD r.title,
           description := p.description.getD r.description }

/-- Server-assigned fields of an insert: the fresh primary key and the
timestamps chosen by the external store. -/
structure ServerMeta where
  newId : String
  createdAt : String
  updatedAt : String
deriving Repr, DecidableEq

/-- Row stored by `insert` of an `ItemCreate.model_dump()` payload merged
with the server-assigned fields. -/
def insertRow (c : ItemCreate) (m : ServerMeta) : Row :=
  { id := m.newId, title := some c.title, description := c.description,
    user_id := c.user_id, created_at := m.createdAt, updated_at := m.updatedAt }

/-- `db.table("items").insert(payload).execute()`: appends the new row and
returns it as the response data. -/
def insertExec (db : Db) (c : ItemCreate) (m : ServerMeta) : Db × List Row :=
  (db ++ [insertRow c m], [insertRow c m])

/-- `db.table("items").select("*").eq("id", id).execute().data`. -/
def selectById (db : Db) (id : String) : List Row :=
  db.filter (fun r => r.id == id)

/-- `update(payload).eq("id", id).execute()`: rewrites every row whose id
matches and returns the rewritten rows as the response data. -/
def updateExec (db : Db) (p : Payload) (id : String) : Db × List Row :=
  (db.map (fun r => if r.id == id then p.apply r else r),
   (db.filter (fun r => r.id == id)).map p.apply)

/-- `delete().eq("id", id).execute()`: removes every row whose id matches
and returns the removed rows as the response data. -/
def deleteExec (db : Db) (id : String) : Db × List Row :=
  (db.filter (fun r => !(r.id == id)), db.filter (fun r => r.id == id))

/-- `.single().execute()` (postgrest): succeeds with the row when the
filtered result has exactly one row, otherwise raises an `APIError`. -/
def singleExec (rows : List Row) : Except Exc Row :=
  match rows with
  | [r] => .ok r
  | _ => .error (Exc.api "JSON object requested, multiple (or no) rows returned")

/-! ## Generic repository `CRUDBase` (src/shared/crud_base.py),
instantiated at the Item model as `item_repository` does. -/

namespace CRUDBase

/-- `CRUDBase.get`: select by id; `self.model(**response.data[0]) if
response.data else None`.  A pydantic validation failure propagates as an
exception. -/
def get (db : Db) (id : String) : Except Exc (Option Item) :=
  match selectById db id with
  | [] => .ok none
  | r :: _ => (Item.ofRow r).map some

/-- `CRUDBase.create`: insert `obj_in.model_dump()` and build the model
from `response.data[0]`. -/
def create (db : Db) (obj_in : ItemCreate) (m : ServerMeta) :
    Db × Except Exc Item :=
  let res := insertExec db obj_in m
  (res.1, match res.2 with
          | [] => .error (Exc.api "index out of range")
          | r :: _ => Item.ofRow r)

/-- `ItemUpdate.model_dump(exclude={"id"})` as an update payload: every
non-id field is in the payload, optional fields left unset are dumped as
None (there is no `exclude_unset`). -/
def updatePayload (obj_in : ItemUpdate) : Payload :=
  { id := none, title := some obj_in.title, description := some obj_in.description }

/-- `CRUDBase.update`: update with the non-id dump filtered on
`obj_in.id`, then build the model from `response.data[0]`; an empty
response raises (`IndexError`). -/
def update (db : Db) (obj_in : ItemUpdate) : Db × Except Exc Item :=
  let res := updateExec db (updatePayload obj_in) obj_in.id
  (res.1, match res.2 with
          | [] => .error (Exc.api "list index out of range")
          | r :: _ => Item.ofRow r)

/-- `CRUDBase.delete`: delete filtered on `id`, then build the model from
`response.data[0]`; an empty response raises (`IndexError`). -/
def delete (db : Db) (id : String) : Db × Except Exc Item :=
  let res := deleteExec db id
  (res.1, match res.2 with
          | [] => .error (Exc.api "list index out of range")
          | r :: _ => Item.ofRow r)

end CRUDBase

/-! ## Identity resolver and role gate (src/supabase/deps.py) -/

/-- The pydantic model `UserIn` (src/supabase/schemas.py): field defaults
`is_active = True` and `roles = ["user"]` apply only when the key is not
supplied at construction.  The free-form `metadata` mapping is modelled
only through the entries the code reads (`roles`, `is_superuser`), carried
on `ProviderUser`. -/
structure UserIn where
  id : String
  email : String
  is_active : Bool
  roles : List String
deriving Repr, DecidableEq

/-- The user object of the provider's `auth.get_user` response: `email`
may be absent, `user_metadata_roles` is `user_metadata.get("roles")`
(`none` when the metadata supplies no roles) and `user_metadata_su` is
`user_metadata.get("is_superuser")`. -/
structure ProviderUser where
  id : String
  email : Option String
  user_metadata_roles : Option (List String)
  user_metadata_su : Option Bool
deriving Repr, DecidableEq

/-- Outcome of `super_client.auth.get_user(token)`: an exception message
(`AuthApiError` for invalid/expired/malformed tokens), or a response whose
`user` may be `None`.  Pydantic `EmailStr` format checking is delegated to
the library and modelled as presence of the email. -/
abbrev AuthLookup := Except String (Option ProviderUser)

/-- The `AuthError` HTTP status (class `AuthError`, status_code=401). -/
def authErrorStatus : Nat := 401

/-- The `PermissionError` HTTP status (class `PermissionError`,
status_code=403). -/
def permissionErrorStatus : Nat := 403

/-- The dependency `get_current_user` (src/supabase/deps.py lines
138-188).  `clientReady` is whether `super_client` is initialized;
`lookup` is the result of the provider call for the request's bearer
token.  Every exception raised in the try block — the 500 for a missing
client, the provider's `AuthApiError`, the 401 for a response without a
user, and the pydantic validation error for a user without an email — is
caught by `except Exception` and re-raised as `HTTPException(401, str(e))`. -/
def get_current_user (clientReady : Bool) (lookup : AuthLookup) :
    Except (Nat × String) UserIn :=
  let attempt : Except Exc UserIn := do
    if !clientReady then
      throw (Exc.http 500 "Database connection not initialized")
    match ← lookup.mapError Exc.auth with
    | none => throw (Exc.http 401 "Could not validate credentials")
    | some pu =>
      match pu.email with
      | none => throw (Exc.validation "validation error for UserIn: email")
      | some e =>
          pure { id := pu.id, email := e, is_active := true,
                 roles := pu.user_metadata_roles.getD [] }
  match attempt with
  | .ok u => .ok u
  | .error e => .error (authErrorStatus, e.message)

/-- `SupabaseAuthService.get_current_user` (src/supabase/deps.py lines
42-71).  The `AuthError`s raised inside the try block are themselves
caught by the final `except Exception` and re-wrapped; an `AuthApiError`
is re-raised as `AuthError(str(e))`.  Every failure is an `AuthError`
(status 401). -/
def service_get_current_user (lookup : AuthLookup) :
    Except (Nat × String) UserIn :=
  let attempt : Except Exc UserIn := do
    match ← lookup.mapError Exc.auth with
    | none => throw (Exc.http authErrorStatus "Invalid authentication credentials")
    | some pu =>
      match pu.email with
      | none => throw (Exc.http authErrorStatus "User email is required")
      | some e =>
          pure { id := pu.id, email := e, is_active := true,
                 roles := pu.user_metadata_roles.getD [] }
  match attempt with
  | .ok u => .ok u
  | .error (Exc.auth m) => .error (authErrorStatus, m)
  | .error e => .error (authErrorStatus, "Authentication failed: " ++ e.message)

/-- `SupabaseAuthService.validate_roles` (src/supabase/deps.py lines
73-75): raises `PermissionError` unless some required role is among the
user's roles. -/
def validate_roles (user : UserIn) (roles : List String) :
    Except (Nat × String) Unit :=
  if !(roles.any fun role => user.roles.contains role) then
    .error (permissionErrorStatus, "User does not have required roles")
  else
    .ok ()

/-- The `UserRole` enum (src/supabase/deps.py). -/
inductive UserRole where
  | admin
  | user
  | guest
deriving Repr, DecidableEq

/-- The `.value` of a `UserRole`. -/
def UserRole.value : UserRole → String
  | .admin => "admin"
  | .user => "user"
  | .guest => "guest"

/-- The checker returned by `has_roles(*roles)` (src/supabase/deps.py
lines 225-248), applied to an already-resolved user: validates the role
list and re-raises any failure unchanged. -/
def has_roles (roles : List UserRole) (user : UserIn) :
    Except (Nat × String) UserIn :=
  match validate_roles user (roles.map UserRole.value) with
  | .ok _ => .ok user
  | .error e => .error e

/-! ## Item endpoints (src/item/api_v1/endpoints.py).  Each takes the
items table, the id of the already-resolved current user, and its inputs;
mutating endpoints also return the resulting table. -/

/-- Python truthiness of a row mapping returned by a successful
`.single()` call: such a response always holds at least the primary-key
column, so the mapping is never falsy. -/
def rowEmpty (_ : Row) : Bool := false

/-- `GET /items/{item_id}` (`read_item`): select by id AND user_id with
`.single()`; the `if not response.data` 404 branch and the model build
run inside the same try block, whose `except Exception` maps every
raised exception to a 500 response with `str(e)` as the detail. -/
def read_item (db : Db) (userId : String) (item_id : String) :
    EndpointResult Item :=
  let attempt : Except Exc Item := do
    let row ← singleExec (db.filter fun r => r.id == item_id && r.user_id == some userId)
    if rowEmpty row then
      throw (Exc.http 404 "Item not found")
    Item.ofRow row
  match attempt with
  | .ok it => .ok it
  | .error e => .err 500 e.message

/-- `POST /items` (`create_item`): dumps the input, overwrites
`data["user_id"]` with the authenticated user's id, inserts, and builds
the response model; any exception becomes a 500. -/
def create_item (db : Db) (userId : String) (item_in : ItemCreate)
    (m : ServerMeta) : Db × EndpointResult Item :=
  let data : ItemCreate :=
    { title := item_in.title, description := item_in.description,
      user_id := some userId }
  let res := insertExec db data m
  match res.2 with
  | [] => (res.1, .err 500 (Exc.http 400 "Could not create item").message)
  | r :: _ =>
    match Item.ofRow r with
    | .ok it => (res.1, .ok it)
    | .error e => (res.1, .err 500 e.message)

/-- `ItemUpdate.model_dump()` as used by the update endpoint: unlike the
repository, the endpoint does not exclude `id`, so the payload writes the
id column as well. -/
def endpointUpdatePayload (u : ItemUpdate) : Payload :=
  { id := some u.id, title := some u.title, description := some u.description }

/-- `PUT /items/{item_id}` (`update_item`): ownership check via
`.single()` on id AND user_id, then an update filtered on id only; every
exception raised in the try block — including its own 404 and 400
`HTTPException`s — is re-raised as a 500 with `str(e)` as the detail. -/
def update_item (db : Db) (userId : String) (item_id : String)
    (item_in : ItemUpdate) : Db × EndpointResult Item :=
  match singleExec (db.filter fun r => r.id == item_id && r.user_id == some userId) with
  | .error e => (db, .err 500 e.message)
  | .ok row =>
    if rowEmpty row then
      (db, .err 500 (Exc.http 404 "Item not found").message)
    else
      let res := updateExec db (endpointUpdatePayload item_in) item_id
      match res.2 with
      | [] => (res.1, .err 500 (Exc.http 400 "Could not update item").message)
      | r :: _ =>
        match Item.ofRow r with
        | .ok it => (res.1, .ok it)
        | .error e => (res.1, .err 500 e.message)

/-- `DELETE /items/{item_id}` (`delete_item`): ownership check via
`.single()` on id AND user_id, then a delete filtered on id only; every
exception raised in the try block is re-raised as a 500 with `str(e)` as
the detail. -/
def delete_item (db : Db) (userId : String) (item_id : String) :
    Db × EndpointResult Item :=
  match singleExec (db.filter fun r => r.id == item_id && r.user_id == some userId) with
  | .error e => (db, .err 500 e.message)
  | .ok row =>
    if rowEmpty row then
      (db, .err 500 (Exc.http 404 "Item not found").message)
    else
      let res := deleteExec db item_id
      match res.2 with
      | [] => (res.1, .err 500 (Exc.http 400 "Could not delete item").message)
      | r :: _ =>
        match Item.ofRow r with
        | .ok it => (res.1, .ok it)
        | .error e => (res.1, .err 500 e.message)

/-! ## Concrete sample data used to evaluate the development -/

/-- A stored row owned by user `alice`, with a non-NULL description. -/
def rowAlice : Row :=
  { id := "i1", title := some "t", description := some "d",
    user_id := some "alice", created_at := "2025-01-01", updated_at := "2025-01-02" }

/-- A provider user whose metadata supplies no roles. -/
def providerNoRoles : ProviderUser :=
  { id := "s1", email := some "a@b.c", user_metadata_roles := none,
    user_metadata_su := none }

/-- A resolved user holding only the role `user`. -/
def userPlain : UserIn :=
  { id := "u1", email := "u@e.x", is_active := true, roles := ["user"] }

/-- A resolved user holding the roles `user` and `admin`. -/
def userAdmin : UserIn :=
  { id := "u2", email := "a@e.x", is_active := true, roles := ["user", "admin"] }

/-- A create input that tries to smuggle a foreign `user_id` in the body. -/
def createSmuggle : ItemCreate :=
  { title := "x", description := none, user_id := some "mallory" }

/-- Server-assigned fields for a sample insert. -/
def metaFresh : ServerMeta :=
  { newId := "i2", createdAt := "2025-02-01", updatedAt := "2025-02-01" }

/-- An update input that supplies a new title and no description. -/
def updateTitleOnly : ItemUpdate :=
  { id := "i1", title := some "x", description := none }

/-- The item `CRUDBase.create` returns for an input whose `user_id` is
`some uid`, under server-assigned fields `m`. -/
def createdItem (c : ItemCreate) (m : ServerMeta) (uid : String) : Item :=
  { id := m.newId, title := c.title, description := c.description,
    user_id := uid, created_at := m.createdAt, updated_at := m.updatedAt }

/-! ## Claims -/

/-- C1: the claim says `GET /items/{id}` returns 403 for an item owned by
another user and 404 for an absent id.  The code filters by id AND user_id
with `.single()`, so the two cases raise the same `APIError`, and the
endpoint's blanket `except Exception` maps every failure — including its
own 404 `HTTPException` — to a 500 response: a request by `bob` for
`alice`'s item and a request by `alice` for an absent id both return
status 500, never 403 or 404. -/
theorem read_item_nonowner_and_absent_return_500 :
    read_item [rowAlice] "bob" "i1" =
      EndpointResult.err 500 "JSON object requested, multiple (or no) rows returned" ∧
    read_item [rowAlice] "alice" "i0" =
      EndpointResult.err 500 "JSON object requested, multiple (or no) rows returned" :=
  ⟨rfl, rfl⟩

/-- C2: for every provider-reported token failure (invalid, expired or
malformed bearer token), the identity resolver `get_current_user` fails
with status 401 (`authErrorStatus`), and no user value is returned: the
result is an `Except.error`, never `.ok`. -/
theorem get_current_user_provider_failure_is_401 (ready : Bool) (m : String) :
    ∃ d, get_current_user ready (Except.error m) =
      Except.error (authErrorStatus, d) := by
  cases ready <;> exact ⟨_, rfl⟩

/-- C3: the claim says a valid token whose provider metadata supplies no
roles resolves to a user with roles `{"user"}`.  The code passes
`user_metadata.get("roles", [])`, which always supplies an explicit value
and so bypasses the `UserIn` schema default `["user"]`: both resolvers
return a user whose role list is empty. -/
theorem resolver_roles_empty_when_metadata_has_none :
    (∃ u, get_current_user true (Except.ok (some providerNoRoles)) = Except.ok u ∧
      u.roles = []) ∧
    (∃ u, service_get_current_user (Except.ok (some providerNoRoles)) = Except.ok u ∧
      u.roles = []) :=
  ⟨⟨_, rfl, rfl⟩, ⟨_, rfl, rfl⟩⟩

/-- Helper: a table none of whose rows carry the id filters to the empty
response. -/
theorem filter_id_eq_nil (db : Db) (id : String) (h : ∀ x ∈ db, x.id ≠ id) :
    db.filter (fun x => x.id == id) = [] := by
  rw [List.filter_eq_nil_iff]
  intro x hx
  simp [h x hx]

/-- C4 counterexample: the stored row has description `some "d"` and the
update input supplies no description, yet `CRUDBase.update` returns the
record with description `none` — the unsupplied field is overwritten, not
left unchanged (there is no `exclude_unset` in the dump). -/
theorem crud_update_nulls_unsupplied_description :
    rowAlice.description = some "d" ∧
    updateTitleOnly.description = none ∧
    (∃ it, (CRUDBase.update [rowAlice] updateTitleOnly).2 = Except.ok it ∧
      it.id = "i1" ∧ it.description = none) :=
  ⟨rfl, rfl, ⟨_, rfl, rfl, rfl⟩⟩

/-- C4 amended: for an existing record, `CRUDBase.update` modifies the
record identified by `input.id`, leaves every other row unchanged, and
returns the updated record; but it writes every declared non-id field of
the input — optional fields left unset are written as NULL rather than
left unchanged. -/
theorem crud_update_writes_every_non_id_field (db : Db) (u : ItemUpdate)
    (r : Row) (t uid : String)
    (hf : db.filter (fun x => x.id == u.id) = [r])
    (ht : u.title = some t) (hu : r.user_id = some uid) :
    (CRUDBase.update db u).2 =
      Except.ok { id := r.id, title := t, description := u.description,
                  user_id := uid, created_at := r.created_at,
                  updated_at := r.updated_at } ∧
    (CRUDBase.update db u).1 =
      db.map (fun x => if x.id == u.id
        then { x with title := u.title, description := u.description }
        else x) := by
  constructor
  · simp [CRUDBase.update, updateExec, hf, CRUDBase.updatePayload, Payload.apply,
      Item.ofRow, ht, hu]
  · simp only [CRUDBase.update, updateExec]
    refine List.map_congr_left ?_
    intro x _
    split <;> simp [Payload.apply, CRUDBase.updatePayload]

/-- C4 witness: the amended statement evaluated on the sample table. -/
theorem crud_update_writes_every_non_id_field_witness :
    (CRUDBase.update [rowAlice] updateTitleOnly).2 =
      Except.ok { id := rowAlice.id, title := "x",
                  description := updateTitleOnly.description,
                  user_id := "alice", created_at := rowAlice.created_at,
                  updated_at := rowAlice.updated_at } ∧
    (CRUDBase.update [rowAlice] updateTitleOnly).1 =
      [rowAlice].map (fun x => if x.id == updateTitleOnly.id
        then { x with title := updateTitleOnly.title,
                      description := updateTitleOnly.description }
        else x) :=
  crud_update_writes_every_non_id_field [rowAlice] updateTitleOnly rowAlice
    "x" "alice" rfl rfl rfl

/-- C5: repository `update` on an id with no record and repository
`delete` on an id with no record both fail (the response data is empty and
indexing it raises), returning no record; `delete` on an id whose record
exists returns the deleted record's last-known values. -/
theorem crud_update_delete_absent_fail (db : Db) (u : ItemUpdate)
    (idA idB : String) (r : Row) (t uid : String) :
    ((∀ x ∈ db, x.id ≠ u.id) → ∃ e, (CRUDBase.update db u).2 = Except.error e) ∧
    ((∀ x ∈ db, x.id ≠ idA) → ∃ e, (CRUDBase.delete db idA).2 = Except.error e) ∧
    (db.filter (fun x => x.id == idB) = [r] → r.title = some t →
      r.user_id = some uid →
      (CRUDBase.delete db idB).2 =
        Except.ok { id := r.id, title := t, description := r.description,
                    user_id := uid, created_at := r.created_at,
                    updated_at := r.updated_at }) := by
  refine ⟨?_, ?_, ?_⟩
  · intro h
    have hnil := filter_id_eq_nil db u.id h
    simp [CRUDBase.update, updateExec, hnil]
  · intro h
    have hnil := filter_id_eq_nil db idA h
    simp [CRUDBase.delete, deleteExec, hnil]
  · intro hf ht hu
    simp [CRUDBase.delete, deleteExec, hf, Item.ofRow, ht, hu]

/-- C5 witness: evaluated on the sample table with the absent id `zz` and
the present id `i1`. -/
theorem crud_update_delete_absent_fail_witness :
    (∃ e, (CRUDBase.update [rowAlice]
      { id := "zz", title := none, description := none }).2 = Except.error e) ∧
    (∃ e, (CRUDBase.delete [rowAlice] "zz").2 = Except.error e) ∧
    (CRUDBase.delete [rowAlice] "i1").2 =
      Except.ok { id := rowAlice.id, title := "t",
                  description := rowAlice.description, user_id := "alice",
                  created_at := rowAlice.created_at,
                  updated_at := rowAlice.updated_at } := by
  have h := crud_update_delete_absent_fail [rowAlice]
    { id := "zz", title := none, description := none } "zz" "i1" rowAlice
    "t" "alice"
  exact ⟨h.1 (by decide), h.2.1 (by decide), h.2.2 rfl rfl rfl⟩

/-- C9: repository `get` returns `none` — inside a successful response,
not an error — when no record carries the id, and returns the record with
that id otherwise. -/
theorem crud_get_none_when_absent (db : Db) (idA idB : String) (r : Row)
    (t uid : String) :
    ((∀ x ∈ db, x.id ≠ idA) → CRUDBase.get db idA = Except.ok none) ∧
    (db.filter (fun x => x.id == idB) = [r] → r.title = some t →
      r.user_id = some uid →
      CRUDBase.get db idB =
        Except.ok (some { id := r.id, title := t, description := r.description,
                          user_id := uid, created_at := r.created_at,
                          updated_at := r.updated_at })) := by
  constructor
  · intro h
    have hnil := filter_id_eq_nil db idA h
    simp [CRUDBase.get, selectById, hnil]
  · intro hf ht hu
    simp [CRUDBase.get, selectById, hf, Item.ofRow, ht, hu, Except.map]

/-- C9 witness: evaluated on the sample table with the absent id `zz` and
the present id `i1`. -/
theorem crud_get_none_when_absent_witness :
    CRUDBase.get [rowAlice] "zz" = Except.ok none ∧
    CRUDBase.get [rowAlice] "i1" =
      Except.ok (some { id := rowAlice.id, title := "t",
                        description := rowAlice.description,
                        user_id := "alice", created_at := rowAlice.created_at,
                        updated_at := rowAlice.updated_at }) := by
  have h := crud_get_none_when_absent [rowAlice] "zz" "i1" rowAlice "t" "alice"
  exact ⟨h.1 (by decide), h.2 rfl rfl rfl⟩

/-- C6: for every resolved user and non-empty required role list, the
role gate succeeds exactly when some required role is among the user's
roles; on failure it raises `PermissionError` (status 403), distinct from
`AuthError` (status 401); concretely, `has_roles(admin)` rejects the user
holding only `user` and accepts the user holding `user` and `admin`. -/
theorem role_gate_succeeds_iff_intersection (user : UserIn)
    (req : List String) (hne : req ≠ []) :
    ((validate_roles user req = Except.ok ()) ↔
      ∃ role ∈ req, role ∈ user.roles) ∧
    (∀ s d, validate_roles user req = Except.error (s, d) →
      s = permissionErrorStatus) ∧
    permissionErrorStatus ≠ authErrorStatus ∧
    has_roles [UserRole.admin] userPlain =
      Except.error (permissionErrorStatus, "User does not have required roles") ∧
    has_roles [UserRole.admin] userAdmin = Except.ok userAdmin := by
  refine ⟨?_, ?_, by decide, rfl, rfl⟩
  · unfold validate_roles
    split
    · next hcond => simp_all [List.any_eq_true]
    · next hcond => simp_all [List.any_eq_true]
  · intro s d hsd
    unfold validate_roles at hsd
    split at hsd
    · rw [Except.error.injEq, Prod.mk.injEq] at hsd
      exact hsd.1.symm
    · exact absurd hsd (by simp)

/-- C6 witness: the gate evaluated at the sample users against the
required role list `["admin"]`. -/
theorem role_gate_succeeds_iff_intersection_witness :
    ((validate_roles userPlain ["admin"] = Except.ok ()) ↔
      ∃ role ∈ ["admin"], role ∈ userPlain.roles) ∧
    (∀ s d, validate_roles userPlain ["admin"] = Except.error (s, d) →
      s = permissionErrorStatus) ∧
    permissionErrorStatus ≠ authErrorStatus ∧
    has_roles [UserRole.admin] userPlain =
      Except.error (permissionErrorStatus, "User does not have required roles") ∧
    has_roles [UserRole.admin] userAdmin = Except.ok userAdmin :=
  role_gate_succeeds_iff_intersection userPlain ["admin"] (by decide)

/-- C7: for every authenticated create request, the row the endpoint
inserts carries the caller's id as `user_id` — regardless of any
`user_id` in the request body — and the returned item's `user_id` is the
caller's id. -/
theorem create_item_owner_is_caller (db : Db) (userId : String)
    (item_in : ItemCreate) (m : ServerMeta) :
    ∃ row it, (create_item db userId item_in m).1 = db ++ [row] ∧
      row.user_id = some userId ∧
      (create_item db userId item_in m).2 = EndpointResult.ok it ∧
      it.user_id = userId := by
  refine ⟨insertRow (ItemCreate.mk item_in.title item_in.description (some userId)) m,
    createdItem (ItemCreate.mk item_in.title item_in.description (some userId)) m userId,
    rfl, rfl, ?_, rfl⟩
  simp [create_item, insertExec, insertRow, Item.ofRow, createdItem]

/-- C8: repository `create` followed by `get` on the returned record's id
yields exactly the created record, provided the server-assigned id was
fresh for the table. -/
theorem crud_create_get_roundtrip (db : Db) (c : ItemCreate)
    (m : ServerMeta) (it : Item)
    (hfresh : ∀ x ∈ db, x.id ≠ m.newId)
    (hok : (CRUDBase.create db c m).2 = Except.ok it) :
    CRUDBase.get (CRUDBase.create db c m).1 it.id = Except.ok (some it) := by
  have hnil := filter_id_eq_nil db m.newId hfresh
  cases hc : c.user_id with
  | none =>
      exfalso
      simp [CRUDBase.create, insertExec, insertRow, Item.ofRow, hc] at hok
  | some uid =>
      have hcr : (CRUDBase.create db c m).2 = Except.ok (createdItem c m uid) := by
        simp [CRUDBase.create, insertExec, insertRow, Item.ofRow, hc, createdItem]
      rw [hcr] at hok
      have hit : it = createdItem c m uid := (Except.ok.inj hok).symm
      subst hit
      simp [CRUDBase.create, CRUDBase.get, insertExec, selectById,
        List.filter_append, hnil, insertRow, Item.ofRow, hc, Except.map,
        createdItem]

/-- C8 witness: the round-trip evaluated on the sample table with a fresh
server-assigned id. -/
theorem crud_create_get_roundtrip_witness :
    (∀ x ∈ [rowAlice], x.id ≠ metaFresh.newId) ∧
    (CRUDBase.create [rowAlice] createSmuggle metaFresh).2 =
      Except.ok { id := "i2", title := "x", description := none,
                  user_id := "mallory", created_at := "2025-02-01",
                  updated_at := "2025-02-01" } ∧
    CRUDBase.get (CRUDBase.create [rowAlice] createSmuggle metaFresh).1 "i2" =
      Except.ok (some { id := "i2", title := "x", description := none,
                        user_id := "mallory", created_at := "2025-02-01",
                        updated_at := "2025-02-01" }) :=
  ⟨by decide, rfl,
   crud_create_get_roundtrip [rowAlice] createSmuggle metaFresh
     { id := "i2", title := "x", description := none, user_id := "mallory",
       created_at := "2025-02-01", updated_at := "2025-02-01" }
     (by decide) rfl⟩

/-- C10: whenever `read_item`, `update_item` or `delete_item` passes
authentication but fails — the item being absent included — the blanket
`except Exception` turns the failure into an error response whose status
is 500: these three endpoints never answer with a 404 or 400 status. -/
theorem item_id_endpoints_fail_only_with_500 (db : Db)
    (userId item_id : String) (u : ItemUpdate) (s : Nat) (d : String) :
    (read_item db userId item_id = EndpointResult.err s d → s = 500) ∧
    ((update_item db userId item_id u).2 = EndpointResult.err s d → s = 500) ∧
    ((delete_item db userId item_id).2 = EndpointResult.err s d → s = 500) := by
  refine ⟨?_, ?_, ?_⟩ <;> intro h
  · unfold read_item at h
    rcases hs : singleExec (db.filter fun r => r.id == item_id && r.user_id == some userId) with e | row
    · simp [hs, Bind.bind, Except.bind] at h
      exact h.1.symm
    · simp [hs, Bind.bind, Except.bind, rowEmpty] at h
      rcases ho : Item.ofRow row with e2 | it
      · simp [ho, Pure.pure, Except.pure] at h
        exact h.1.symm
      · simp [ho, Pure.pure, Except.pure] at h
  · unfold update_item at h
    rcases hs : singleExec (db.filter fun r => r.id == item_id && r.user_id == some userId) with e | row
    · simp [hs] at h
      exact h.1.symm
    · simp [hs, rowEmpty] at h
      rcases h2 : (updateExec db (endpointUpdatePayload u) item_id).2 with _ | ⟨r, rest⟩
      · simp [h2] at h
        exact h.1.symm
      · simp [h2] at h
        rcases ho : Item.ofRow r with e2 | it
        · simp [ho] at h
          exact h.1.symm
        · simp [ho] at h
  · unfold delete_item at h
    rcases hs : singleExec (db.filter fun r => r.id == item_id && r.user_id == some userId) with e | row
    · simp [hs] at h
      exact h.1.symm
    · simp [hs, rowEmpty] at h
      rcases h2 : (deleteExec db item_id).2 with _ | ⟨r, rest⟩
      · simp [h2] at h
        exact h.1.symm
      · simp [h2] at h
        rcases ho : Item.ofRow r with e2 | it
        · simp [ho] at h
          exact h.1.symm
        · simp [ho] at h

/-- C10 witness: the three endpoints evaluated where the item is not
visible to the caller, each failing with status 500. -/
theorem item_id_endpoints_fail_only_with_500_witness :
    read_item [rowAlice] "bob" "i1" = EndpointResult.err 500
      "JSON object requested, multiple (or no) rows returned" ∧
    (update_item [rowAlice] "bob" "i1" updateTitleOnly).2 =
      EndpointResult.err 500
        "JSON object requested, multiple (or no) rows returned" ∧
    (delete_item [rowAlice] "bob" "i1").2 = EndpointResult.err 500
      "JSON object requested, multiple (or no) rows returned" ∧
    (500 : Nat) = 500 ∧ (500 : Nat) = 500 ∧ (500 : Nat) = 500 := by
  have h := item_id_endpoints_fail_only_with_500 [rowAlice] "bob" "i1"
    updateTitleOnly 500
    "JSON object requested, multiple (or no) rows returned"
  exact ⟨rfl, rfl, rfl, h.1 rfl, h.2.1 rfl, h.2.2 rfl⟩

end FastapiSupabase
